import Mathlib

/-!
Verification of the LLMBackend database wizard.

This file gives a shallow embedding of the repository's core:

* the eleven database tool operations (`src/wizard/tools/crud.py` and
  `src/wizard/tools/management.py`), modelled as total functions over an
  abstract relational backend oracle, each returning the dictionary the
  Python function returns together with the ordered list of calls it
  issues to `execute_raw_sql`;
* the plan/execute/reflect/finish state machine of
  `src/wizard/agent_complex.py`, with the inference service modelled as
  an arbitrary stream of responses and the graph driver modelled after
  the recursion-limited superstep loop the source hands the machine to;
* the two-node agent loop of `src/wizard/agent.py` and its `process`
  entry point.

The theorems at the end of the file settle the specification claims
against these definitions.
-/

namespace LLMBackend

/-- A result row: named columns with (stringly modelled) values, as
produced by `execute_raw_sql` in `src/wizard/database.py`. -/
abbrev Row := List (String × String)

/-- Named bind parameters passed alongside a query. -/
abbrev Params := List (String × String)

/-- Values appearing in the dictionaries the tools return. -/
inductive V where
  | s (x : String)
  | n (x : Nat)
  | b (x : Bool)
  | rows (x : List Row)
  | row (x : Option Row)
  | strs (x : List String)
  | pairs (x : List (String × String))
  | dicts (x : List (List (String × String)))
  | null
deriving DecidableEq

/-- A Python dictionary, modelled as an insertion-ordered key/value list. -/
abbrev Dict := List (String × V)

/-- The relational execution backend: a parameterized query either
returns rows or fails with a diagnostic string (`execute_raw_sql`). -/
abbrev Backend := String → Params → Except String (List Row)

/-- `sep.join xs` as in Python. -/
def joinSep (sep : String) : List String → String
  | [] => ""
  | [x] => x
  | x :: xs => x ++ sep ++ joinSep sep xs

/-- A single-quote character, used inside SQL and message literals. -/
def sq : String := String.mk [Char.ofNat 39]

/-- The diagnostic of the first failing call in an issued-call trace,
re-evaluated against the (pure) backend oracle. -/
def firstDiag (b : Backend) : List (String × Params) → Option String
  | [] => none
  | (q, ps) :: rest =>
    match b q ps with
    | .error e => some e
    | .ok _ => firstDiag b rest

/-- Does the character list `hay` start with `pat`? -/
def startsWith : List Char → List Char → Bool
  | _, [] => true
  | [], _ :: _ => false
  | h :: hs, p :: ps => h == p && startsWith hs ps

/-- Does `pat` occur as a contiguous sublist of the character list? -/
def hasSubList (pat : List Char) : List Char → Bool
  | [] => startsWith [] pat
  | h :: t => startsWith (h :: t) pat || hasSubList pat t

/-- Python's `pat in s` substring test. -/
def strContains (s pat : String) : Bool :=
  hasSubList pat.data s.data

/-- ASCII lowercasing of one character, as `str.lower` does on the
basic latin range. -/
def lowerChar (c : Char) : Char :=
  if 65 ≤ c.toNat ∧ c.toNat ≤ 90 then Char.ofNat (c.toNat + 32) else c

/-- Python's `s.lower()`. -/
def lowerStr (s : String) : String :=
  String.mk (s.data.map lowerChar)

/-! ## The eleven database operations

Each operation returns the dictionary built by the Python function plus
the ordered trace of `(query, params)` calls issued to `execute_raw_sql`.
The `try/except` wrapper of the source is the `match` on the backend
outcome; exceptions raised before any backend call (e.g. `KeyError` on a
missing dictionary key) are modelled by the corresponding early
failure branch. -/

/-- The three-field dictionary every operation returns on failure:
success flag, error text, human-readable message — and nothing else. -/
def failDict3 (e m : String) : Dict :=
  [("success", .b false), ("error", .s e), ("message", .s m)]

/-- The shared try/except shape of a single-query operation: issue the
query, build the success dictionary from the rows, or catch the backend
fault and return the three-field failure dictionary carrying its
diagnostic verbatim. -/
def tryQuery (b : Backend) (q : String) (ps : Params)
    (onOk : List Row → Dict) (failMsg : String) : Dict × List (String × Params) :=
  match b q ps with
  | .ok rows => (onOk rows, [(q, ps)])
  | .error e => (failDict3 e failMsg, [(q, ps)])

/-- CREATE: insert new records into a table (`crud.py:6`). -/
def create_record (b : Backend) (table_name : String) (data : Params) :
    Dict × List (String × Params) :=
  let columns := joinSep ", " (data.map (·.1))
  let placeholders := joinSep ", " (data.map (fun kv => ":" ++ kv.1))
  let query := "INSERT INTO " ++ table_name ++ " (" ++ columns ++ ") VALUES (" ++
    placeholders ++ ") RETURNING *"
  tryQuery b query data
    (fun result =>
      [("success", .b true),
       ("message", .s ("Successfully created record in " ++ table_name)),
       ("data", .row result.head?)])
    ("Failed to create record in " ++ table_name)

/-- The bind parameters of `read_records`: the conditions mapping when
it is truthy, empty otherwise. -/
def read_params (conditions : Option Params) : Params :=
  match conditions with
  | some (c :: cs) => c :: cs
  | _ => []

/-- The query `read_records` builds before the LIMIT step: SELECT
clause, optional WHERE conjunction, optional ORDER BY — each guarded by
Python truthiness as in the source. -/
def read_query_base (table_name : String) (conditions : Option Params)
    (columns : Option (List String)) (order_by : Option String) : String :=
  let select_columns :=
    match columns with
    | some (c :: cs) => joinSep ", " (c :: cs)
    | _ => "*"
  let base := "SELECT " ++ select_columns ++ " FROM " ++ table_name
  let q1 :=
    match conditions with
    | some (c :: cs) =>
      base ++ " WHERE " ++
        joinSep " AND " ((c :: cs).map (fun kv => kv.1 ++ " = :" ++ kv.1))
    | _ => base
  match order_by with
  | some ob => if ob == "" then q1 else q1 ++ " ORDER BY " ++ ob
  | none => q1

/-- The full `read_records` query: `LIMIT` is appended when the limit
argument is truthy (`if limit:` in the source). -/
def read_query (table_name : String) (conditions : Option Params)
    (columns : Option (List String)) (limit : Option Int)
    (order_by : Option String) : String :=
  let q2 := read_query_base table_name conditions columns order_by
  match limit with
  | some l => if l == 0 then q2 else q2 ++ " LIMIT " ++ toString l
  | none => q2

/-- READ: query records from a table with flexible filtering
(`crud.py:33`).  `conditions`, `columns`, `limit` and `order_by` are
optional and tested for Python truthiness exactly as in the source. -/
def read_records (b : Backend) (table_name : String)
    (conditions : Option Params) (columns : Option (List String))
    (limit : Option Int) (order_by : Option String) :
    Dict × List (String × Params) :=
  let query := read_query table_name conditions columns limit order_by
  let params := read_params conditions
  tryQuery b query params
    (fun result =>
      [("success", .b true),
       ("message", .s ("Successfully queried " ++ table_name)),
       ("data", .rows result),
       ("count", .n result.length)])
    ("Failed to query " ++ table_name)

/-- UPDATE: modify existing records in a table (`crud.py:84`). -/
def update_record (b : Backend) (table_name : String) (data : Params)
    (conditions : Params) : Dict × List (String × Params) :=
  let set_clauses := data.map (fun kv => kv.1 ++ " = :set_" ++ kv.1)
  let where_clauses := conditions.map (fun kv => kv.1 ++ " = :where_" ++ kv.1)
  let params := data.map (fun kv => ("set_" ++ kv.1, kv.2)) ++
    conditions.map (fun kv => ("where_" ++ kv.1, kv.2))
  let query := "\n            UPDATE " ++ table_name ++
    "\n            SET " ++ joinSep ", " set_clauses ++
    "\n            WHERE " ++ joinSep " AND " where_clauses ++
    "\n            RETURNING *\n        "
  tryQuery b query params
    (fun result =>
      [("success", .b true),
       ("message", .s ("Successfully updated records in " ++ table_name)),
       ("data", .rows result),
       ("updated_count", .n result.length)])
    ("Failed to update records in " ++ table_name)

/-- DELETE: remove records from a table (`crud.py:128`).  Refuses to
issue any query when the conditions mapping is empty. -/
def delete_record (b : Backend) (table_name : String) (conditions : Params) :
    Dict × List (String × Params) :=
  let where_clauses := conditions.map (fun kv => kv.1 ++ " = :" ++ kv.1)
  if where_clauses.isEmpty then
    (failDict3 "No conditions provided for deletion"
      "DELETE operations require conditions to prevent accidental data loss", [])
  else
    let query := "\n            DELETE FROM " ++ table_name ++
      "\n            WHERE " ++ joinSep " AND " where_clauses ++
      "\n            RETURNING *\n        "
    tryQuery b query conditions
      (fun result =>
        [("success", .b true),
         ("message", .s ("Successfully deleted records from " ++ table_name)),
         ("data", .rows result),
         ("deleted_count", .n result.length)])
      ("Failed to delete records from " ++ table_name)

/-- DESCRIBE DATABASE: list all tables in the current database
(`management.py:6`). -/
def describe_database (b : Backend) : Dict × List (String × Params) :=
  let query := "\n            SELECT table_name, table_type" ++
    "\n            FROM information_schema.tables" ++
    "\n            WHERE table_schema = " ++ sq ++ "public" ++ sq ++
    "\n            ORDER BY table_name\n        "
  tryQuery b query []
    (fun result =>
      [("success", .b true),
       ("message", .s "Successfully retrieved database schema"),
       ("tables", .rows result),
       ("table_count", .n result.length)])
    "Failed to describe database"

/-- The column-information query of `describe_table` (`management.py:40`). -/
def columns_query : String :=
  "\n            SELECT\n                column_name," ++
  "\n                data_type,\n                is_nullable," ++
  "\n                column_default,\n                character_maximum_length" ++
  "\n            FROM information_schema.columns" ++
  "\n            WHERE table_name = :table_name" ++
  "\n            AND table_schema = " ++ sq ++ "public" ++ sq ++
  "\n            ORDER BY ordinal_position\n        "

/-- The constraint query of `describe_table` (`management.py:54`). -/
def constraints_query : String :=
  "\n            SELECT\n                tc.constraint_name," ++
  "\n                tc.constraint_type,\n                kcu.column_name" ++
  "\n            FROM information_schema.table_constraints tc" ++
  "\n            JOIN information_schema.key_column_usage kcu" ++
  "\n                ON tc.constraint_name = kcu.constraint_name" ++
  "\n            WHERE tc.table_name = :table_name" ++
  "\n            AND tc.table_schema = " ++ sq ++ "public" ++ sq ++ "\n        "

/-- DESCRIBE TABLE: show table structure, constraints and row count
(`management.py:34`).  The three queries run in order inside one
`try`; the first failure aborts the rest.  `row_count[0]["row_count"]`
raises a `KeyError` (whose Python string form is the quoted key) when
the first row lacks that column. -/
def describe_table (b : Backend) (table_name : String) :
    Dict × List (String × Params) :=
  let count_query := "SELECT COUNT(*) as row_count FROM " ++ table_name
  let ps : Params := [("table_name", table_name)]
  match b columns_query ps with
  | .error e => (failDict3 e ("Failed to describe table " ++ table_name), [(columns_query, ps)])
  | .ok columns =>
    match b constraints_query ps with
    | .error e =>
      (failDict3 e ("Failed to describe table " ++ table_name), [(columns_query, ps), (constraints_query, ps)])
    | .ok constraints =>
      let trace := [(columns_query, ps), (constraints_query, ps), (count_query, [])]
      match b count_query [] with
      | .error e => (failDict3 e ("Failed to describe table " ++ table_name), trace)
      | .ok row_count =>
        match row_count.head? with
        | none =>
          ([("success", .b true),
            ("message", .s ("Successfully described table " ++ table_name)),
            ("table_name", .s table_name),
            ("columns", .rows columns),
            ("constraints", .rows constraints),
            ("row_count", .n 0)], trace)
        | some r =>
          match r.lookup "row_count" with
          | none => (failDict3 (sq ++ "row_count" ++ sq) ("Failed to describe table " ++ table_name), trace)
          | some v =>
            ([("success", .b true),
              ("message", .s ("Successfully described table " ++ table_name)),
              ("table_name", .s table_name),
              ("columns", .rows columns),
              ("constraints", .rows constraints),
              ("row_count", .s v)], trace)

/-- One column definition `col["name"] ++ " " ++ col["type"]`; a missing
key is the `KeyError` the source's `try` catches. -/
def colDef (col : List (String × String)) : Except String String :=
  match col.lookup "name" with
  | none => .error (sq ++ "name" ++ sq)
  | some n =>
    match col.lookup "type" with
    | none => .error (sq ++ "type" ++ sq)
    | some t => .ok (n ++ " " ++ t)

/-- CREATE TABLE: create a new table with specified columns and
constraints (`management.py:89`). -/
def create_table (b : Backend) (table_name : String)
    (columns : List (List (String × String))) (constraints : Option (List String)) :
    Dict × List (String × Params) :=
  match columns.mapM colDef with
  | .error e =>
    (failDict3 e ("Failed to create table " ++ table_name), [])
  | .ok defs =>
    let column_defs :=
      match constraints with
      | some (c :: cs) => defs ++ (c :: cs)
      | _ => defs
    let query := "\n            CREATE TABLE " ++ table_name ++ " (" ++
      "\n                " ++ joinSep ", " column_defs ++
      "\n            )\n        "
    tryQuery b query []
      (fun _ =>
        [("success", .b true),
         ("message", .s ("Successfully created table " ++ table_name)),
         ("table_name", .s table_name),
         ("columns", .dicts columns),
         ("constraints", .strs ((constraints.getD [])))])
      ("Failed to create table " ++ table_name)

/-- The DDL text of one `alter_table` operation kind, or the `KeyError`
raised while reading the details mapping (`management.py:144`). -/
def alterQuery (table_name operation : String)
    (details : List (String × String)) : Option (Except String String) :=
  let get (k : String) : Except String String :=
    match details.lookup k with
    | some v => .ok v
    | none => .error (sq ++ k ++ sq)
  if operation == "add_column" then
    some (do
      let cn ← get "column_name"
      let ct ← get "column_type"
      pure ("\n                ALTER TABLE " ++ table_name ++
        "\n                ADD COLUMN " ++ cn ++ " " ++ ct ++ "\n            "))
  else if operation == "drop_column" then
    some (do
      let cn ← get "column_name"
      pure ("\n                ALTER TABLE " ++ table_name ++
        "\n                DROP COLUMN " ++ cn ++ "\n            "))
  else if operation == "modify_column" then
    some (do
      let cn ← get "column_name"
      let nt ← get "new_type"
      pure ("\n                ALTER TABLE " ++ table_name ++
        "\n                ALTER COLUMN " ++ cn ++ " TYPE " ++ nt ++ "\n            "))
  else if operation == "add_constraint" then
    some (do
      let c ← get "constraint"
      pure ("\n                ALTER TABLE " ++ table_name ++
        "\n                ADD " ++ c ++ "\n            "))
  else if operation == "drop_constraint" then
    some (do
      let cn ← get "constraint_name"
      pure ("\n                ALTER TABLE " ++ table_name ++
        "\n                DROP CONSTRAINT " ++ cn ++ "\n            "))
  else none

/-- ALTER TABLE: modify table structure (`management.py:131`). -/
def alter_table (b : Backend) (table_name operation : String)
    (details : List (String × String)) : Dict × List (String × Params) :=
  match alterQuery table_name operation details with
  | none =>
    (failDict3 ("Unsupported operation: " ++ operation)
      ("ALTER TABLE operation " ++ sq ++ operation ++ sq ++ " not supported"), [])
  | some (.error e) =>
    (failDict3 e ("Failed to alter table " ++ table_name), [])
  | some (.ok query) =>
    tryQuery b query []
      (fun _ =>
        [("success", .b true),
         ("message", .s ("Successfully altered table " ++ table_name)),
         ("operation", .s operation),
         ("details", .pairs details)])
      ("Failed to alter table " ++ table_name)

/-- CREATE INDEX: add an index (`management.py:193`). -/
def create_index (b : Backend) (table_name index_name : String)
    (columns : List String) (unique : Bool) : Dict × List (String × Params) :=
  let unique_keyword := if unique then "UNIQUE " else ""
  let columns_str := joinSep ", " columns
  let query := "\n            CREATE " ++ unique_keyword ++ "INDEX " ++ index_name ++
    "\n            ON " ++ table_name ++ " (" ++ columns_str ++ ")\n        "
  tryQuery b query []
    (fun _ =>
      [("success", .b true),
       ("message", .s ("Successfully created index " ++ index_name)),
       ("index_name", .s index_name),
       ("table_name", .s table_name),
       ("columns", .strs columns),
       ("unique", .b unique)])
    ("Failed to create index " ++ index_name)

/-- DROP INDEX: remove an index (`management.py:226`). -/
def drop_index (b : Backend) (index_name : String) :
    Dict × List (String × Params) :=
  let query := "DROP INDEX " ++ index_name
  tryQuery b query []
    (fun _ =>
      [("success", .b true),
       ("message", .s ("Successfully dropped index " ++ index_name)),
       ("index_name", .s index_name)])
    ("Failed to drop index " ++ index_name)

/-- Run a query list in order, stopping at the first failure; returns
the issued calls and the failing diagnostic, if any (the `for` loop of
`manage_transaction`). -/
def runQueries (b : Backend) : List String → List (String × Params) × Option String
  | [] => ([], none)
  | q :: qs =>
    match b q [] with
    | .ok _ => ((q, []) :: (runQueries b qs).1, (runQueries b qs).2)
    | .error e => ([(q, [])], some e)

/-- MANAGE TRANSACTIONS: handle multi-step operations atomically
(`management.py:247`).  In commit mode the failure branch issues a
best-effort `ROLLBACK` whose own outcome is swallowed. -/
def manage_transaction (b : Backend) (operations : List String)
    (operation_type : String) : Dict × List (String × Params) :=
  if operation_type == "commit" then
    let all_queries := "BEGIN" :: operations ++ ["COMMIT"]
    match (runQueries b all_queries).2 with
    | none =>
      ([("success", .b true),
        ("message", .s "Transaction committed successfully"),
        ("operations_count", .n operations.length)], (runQueries b all_queries).1)
    | some e =>
      (failDict3 e "Transaction failed and was rolled back",
       (runQueries b all_queries).1 ++ [("ROLLBACK", [])])
  else if operation_type == "rollback" then
    match b "ROLLBACK" [] with
    | .ok _ =>
      ([("success", .b true),
        ("message", .s "Transaction rolled back successfully")], [("ROLLBACK", [])])
    | .error e =>
      (failDict3 e "Transaction failed and was rolled back",
       [("ROLLBACK", []), ("ROLLBACK", [])])
  else
    (failDict3 ("Invalid operation_type: " ++ operation_type)
      ("operation_type must be " ++ sq ++ "commit" ++ sq ++
        " or " ++ sq ++ "rollback" ++ sq), [])

/-! ## The agent state machine (`src/wizard/agent_complex.py`)

The inference service is out of scope (spec section 1); it is modelled
as an arbitrary stream of response messages, consumed one per model
call.  Tool dispatch `self.tools[name](**args)` may raise (for example
on a keyword-argument mismatch), so invocation is modelled as an oracle
returning either the tool's dictionary or an exception text. -/

/-- A tool-call request carried by an assistant message. -/
structure ToolCall where
  name : String
  args : Params
  id : String
deriving DecidableEq

/-- A model response message: text content plus tool-call requests. -/
structure Msg where
  content : String
  tool_calls : List ToolCall
deriving DecidableEq

/-- One entry of `tool_results`: the dictionaries built at
`agent_complex.py:194` (success) and `agent_complex.py:204` (failure).
The `success` flag records whether the invocation returned (it is
`true` even when the tool's own envelope reports failure). -/
structure TRec where
  tool : String
  args : Params
  result : Option Dict
  error : Option String
  success : Bool
deriving DecidableEq

/-- The `WizardState` typed mapping of `agent_complex.py:20`. -/
structure WizardState where
  question : String
  messages : List Msg
  current_step : String
  tool_results : List TRec
  error_count : Nat
  max_errors : Nat
  final_answer : String
deriving DecidableEq

/-- The eleven registered tool names (`agent_complex.py:96`,
`agent.py:21`). -/
def toolNames : List String :=
  ["create_record", "read_records", "update_record", "delete_record",
   "describe_database", "describe_table", "create_table", "alter_table",
   "create_index", "drop_index", "manage_transaction"]

/-- Tool invocation oracle: `self.tools[name](**args)`, which either
returns a dictionary or raises with a message. -/
abbrev Invoke := String → Params → Except String Dict

/-- The inference service, as the stream of its successive responses. -/
abbrev LLMStream := Nat → Msg

/-- The `plan` node (`agent_complex.py:157`): append the model response
and aim at the execute phase. -/
def plan_node (resp : Msg) (s : WizardState) : WizardState :=
  { s with messages := s.messages ++ [resp], current_step := "execute" }

/-- The `execute` node (`agent_complex.py:178`). -/
def execute_node (inv : Invoke) (s : WizardState) : WizardState :=
  match s.messages.getLast? with
  | none => { s with current_step := "finish" }
  | some last =>
    match last.tool_calls with
    | [] => { s with current_step := "finish" }
    | tc :: _ =>
      if tc.name ∈ toolNames then
        match inv tc.name tc.args with
        | .ok result =>
          { s with
            tool_results := s.tool_results ++ [⟨tc.name, tc.args, some result, none, true⟩],
            current_step := "reflect" }
        | .error e =>
          { s with
            tool_results := s.tool_results ++ [⟨tc.name, tc.args, none, some e, false⟩],
            error_count := s.error_count + 1,
            current_step := "reflect" }
      else { s with current_step := "finish" }

/-- The `reflect` node (`agent_complex.py:220`): append the model's
judgement of the latest result. -/
def reflect_node (resp : Msg) (s : WizardState) : WizardState :=
  { s with messages := s.messages ++ [resp] }

/-- The `finish` node (`agent_complex.py:249`): store the model's
summary as the final answer. -/
def finish_node (resp : Msg) (s : WizardState) : WizardState :=
  { s with final_answer := resp.content }

/-- Conditional edge out of `plan` (`agent_complex.py:263`). -/
def should_execute (s : WizardState) : String :=
  if s.current_step == "execute" then "execute" else "finish"

/-- Conditional edge out of `execute` (`agent_complex.py:266`). -/
def should_continue (s : WizardState) : String :=
  if s.current_step == "reflect" then "reflect" else "finish"

/-- The retry gate after `reflect` (`agent_complex.py:269`). -/
def should_retry (s : WizardState) : String :=
  if s.max_errors ≤ s.error_count then "finish"
  else
    match s.messages.getLast? with
    | none => "finish"
    | some m =>
      if strContains (lowerStr m.content) "done" then "finish"
      else if !m.tool_calls.isEmpty then "plan"
      else "finish"

/-- The retry gate of the historical implementation
(`agent_old.py:219`), whose state model carries the same fields as
`WizardState`: under the error bound it routes to Plan exactly when the
lowercased latest reply contains "next action" or "try again", and to
Finish otherwise; it has no done-marker check and no tool-call check.
The source reads `state.messages[-1]` unconditionally, so an empty
history raises an IndexError, modelled as `none`. -/
def should_retry_old (s : WizardState) : Option String :=
  if s.max_errors ≤ s.error_count then some "finish"
  else
    match s.messages.getLast? with
    | none => none
    | some m =>
      let last_message := lowerStr m.content
      if strContains last_message "next action" || strContains last_message "try again" then
        some "plan"
      else some "finish"

/-- One superstep: run the node on the state.  `k` counts model calls
consumed from the stream. -/
def applyNode (llm : LLMStream) (inv : Invoke) (node : String)
    (s : WizardState) (k : Nat) : WizardState × Nat :=
  if node == "plan" then (plan_node (llm k) s, k + 1)
  else if node == "execute" then (execute_node inv s, k)
  else if node == "reflect" then (reflect_node (llm k) s, k + 1)
  else if node == "finish" then (finish_node (llm k) s, k + 1)
  else (s, k)

/-- The graph's edge function (`agent_complex.py:141`): `finish` is the
only node wired to `END`. -/
def nextNode (node : String) (s : WizardState) : String :=
  if node == "plan" then should_execute s
  else if node == "execute" then should_continue s
  else if node == "reflect" then should_retry s
  else "END"

/-- The recursion-limited superstep driver the compiled graph runs
under: execute nodes until the `END` edge, or fail with the graph
library's recursion error once the step budget is spent.  Returns the
outcome together with the list of nodes executed, in order. -/
def runGraph (llm : LLMStream) (inv : Invoke) :
    Nat → String → WizardState → Nat → Except String WizardState × List String
  | 0, _, _, _ => (.error "GraphRecursionError", [])
  | fuel + 1, node, s, k =>
    let s2 := (applyNode llm inv node s k).1
    let k2 := (applyNode llm inv node s k).2
    let nxt := nextNode node s2
    if nxt == "END" then (.ok s2, [node])
    else
      ((runGraph llm inv fuel nxt s2 k2).1,
       node :: (runGraph llm inv fuel nxt s2 k2).2)

/-- The initial state built by `process` (`agent_complex.py:284`). -/
def initState (question : String) : WizardState :=
  ⟨question, [], "plan", [], 0, 3, ""⟩

/-- `process` of `agent_complex.py:283`: drive the graph with a
recursion limit of 10 starting at `plan`.  The driver's recursion
error is not caught, so it propagates; a normal run returns the state's
`final_answer` (the key is always present, so the `.get` default is
never consulted). -/
def process (llm : LLMStream) (inv : Invoke) (question : String) :
    Except String String :=
  match (runGraph llm inv 10 "plan" (initState question) 0).1 with
  | .ok s => .ok s.final_answer
  | .error e => .error e

/-! ## The two-node agent loop (`src/wizard/agent.py`)

This is the implementation `main.py` serves.  The interaction logger
writes append-only files and is not consulted for control decisions
(spec section 4.4), so it is omitted from the model.  `json.dumps` is
standard-library serialization, passed in as a parameter. -/

/-- A tool message answering one tool-call request. -/
structure ToolMsg where
  content : String
  tool_call_id : String
deriving DecidableEq

/-- A conversation message of the `agent.py` loop. -/
inductive AMsg where
  | system (content : String)
  | human (content : String)
  | ai (m : Msg)
  | tool (t : ToolMsg)
deriving DecidableEq

/-- The textual content of a message. -/
def AMsg.content : AMsg → String
  | .system c => c
  | .human c => c
  | .ai m => m.content
  | .tool t => t.content

/-- `_call_tools` (`agent.py:192`): answer every tool call of the last
message, catching invocation faults and mapping unknown names to a
not-found message. -/
def call_tools (inv : Invoke) (dumps : Dict → String) (last : Msg) :
    List ToolMsg :=
  last.tool_calls.map (fun tc =>
    if tc.name ∈ toolNames then
      match inv tc.name tc.args with
      | .ok result => ⟨dumps result, tc.id⟩
      | .error e => ⟨"Error: " ++ e, tc.id⟩
    else ⟨"Tool " ++ tc.name ++ " not found", tc.id⟩)

/-- The system message of `agent.py:98`. -/
def a_system_message : String :=
  "You are a Database LLM Wizard. Your job is to:\n" ++
  "1. Understand natural language database queries\n" ++
  "2. Use the provided tools to interact with the database\n" ++
  "3. Return clear, natural language responses\n\n" ++
  "Always start by understanding what exists in the database before making changes."

/-- The recursion-limited driver of the `agent.py` graph: the `agent`
node appends the model response and stops when it carries no tool
calls; the `tools` node appends one tool message per call and loops
back. -/
def runAgent (llm : LLMStream) (inv : Invoke) (dumps : Dict → String) :
    Nat → String → List AMsg → Nat → Except String (List AMsg) × List String
  | 0, _, _, _ => (.error "GraphRecursionError", [])
  | fuel + 1, node, msgs, k =>
    if node == "agent" then
      let resp := llm k
      let msgs2 := msgs ++ [.ai resp]
      if resp.tool_calls.isEmpty then (.ok msgs2, ["agent"])
      else
        ((runAgent llm inv dumps fuel "tools" msgs2 (k + 1)).1,
         "agent" :: (runAgent llm inv dumps fuel "tools" msgs2 (k + 1)).2)
    else
      let tms :=
        match msgs.getLast? with
        | some (.ai m) => call_tools inv dumps m
        | _ => []
      ((runAgent llm inv dumps fuel "agent" (msgs ++ tms.map .tool) k).1,
       "tools" :: (runAgent llm inv dumps fuel "agent" (msgs ++ tms.map .tool) k).2)

/-- The log sink `process` writes to: the n-th filesystem operation of
a run (a directory creation, or an open-and-write of the log file)
either succeeds or raises with an OSError text. -/
abbrev LogSink := Nat → Except String Unit

/-- `process` of `agent.py:227`: create the logs directory and the
run's log file — both before the `try` — then drive the graph with
recursion limit 15 inside the `try`, append the final answer to the log
(still inside the `try`), and map any caught fault to a textual error
answer, whose own log append runs inside the `except` handler.
Filesystem operations are numbered in call order: 0 is `os.makedirs`,
1 the initial `open(...)` with the header write, 2 the next append, and
3 the `except` handler's append after a caught append fault.  An
`.error` result is a raw fault propagating to the caller: possible
exactly from the pre-`try` operations and from the append inside the
`except` handler. -/
def processA (fs : LogSink) (llm : LLMStream) (inv : Invoke)
    (dumps : Dict → String) (question : String) : Except String String :=
  match fs 0 with
  | .error e => .error e
  | .ok _ =>
    match fs 1 with
    | .error e => .error e
    | .ok _ =>
      let init : List AMsg := [.system a_system_message, .human question]
      match (runAgent llm inv dumps 15 "agent" init 0).1 with
      | .ok msgs =>
        let result :=
          match msgs.getLast? with
          | some m => m.content
          | none => "I processed your request successfully."
        match fs 2 with
        | .ok _ => .ok result
        | .error e =>
          match fs 3 with
          | .ok _ => .ok ("I encountered an error: " ++ e)
          | .error e2 => .error e2
      | .error e =>
        match fs 2 with
        | .ok _ => .ok ("I encountered an error: " ++ e)
        | .error e2 => .error e2

/-! ## Concrete oracles used by witnesses and counterexamples -/

/-- A backend that answers every query with no rows. -/
def okBackend : Backend := fun _ _ => .ok []

/-- A backend that fails every query with the given diagnostic. -/
def errBackend (e : String) : Backend := fun _ _ => .error e

/-- An inference stream that always answers with plain text and no
tool calls. -/
def idleLLM : LLMStream := fun _ => ⟨"hello", []⟩

/-- An inference stream that always requests another tool call and
never signals completion. -/
def loopLLM : LLMStream := fun _ => ⟨"keep going", [⟨"describe_database", [], "c0"⟩]⟩

/-- A tool-invocation oracle whose calls always return an empty
dictionary. -/
def okInv : Invoke := fun _ _ => .ok []

/-- A log sink that never faults. -/
def okFS : LogSink := fun _ => .ok ()

/-- A log sink whose every operation faults — already the first one,
`os.makedirs`, which runs before the `try` of `process`. -/
def failFS : LogSink := fun _ => .error "disk full"

/-- Does the Execute phase's tool invocation raise on this state?  This
is the condition under which `_execute_node` takes its `except` branch. -/
def execFailed (inv : Invoke) (s : WizardState) : Bool :=
  match s.messages.getLast? with
  | none => false
  | some last =>
    match last.tool_calls with
    | [] => false
    | tc :: _ =>
      if tc.name ∈ toolNames then
        match inv tc.name tc.args with
        | .ok _ => false
        | .error _ => true
      else false

/-- A state whose latest message requests a tool absent from the
registry. -/
def unknownToolState : WizardState :=
  ⟨"q", [⟨"", [⟨"nonexistent_tool", [], "call_1"⟩]⟩], "execute", [], 0, 3, ""⟩

/-- The node names of the compiled graph. -/
def graphNodes : List String := ["plan", "execute", "reflect", "finish"]

/-- The ToolResult envelope invariant, as amended: a success dictionary
carries no error key, while a failure dictionary is exactly the
three-field success/error/message shape — the payload is absent and the
error field present (empty only when a backend diagnostic is empty). -/
def EnvOK (r : Dict) : Prop :=
  (r.lookup "success" = some (.b true) ∧ r.lookup "error" = none) ∨
  (∃ e m, r = failDict3 e m)

/-! ## Claim C1 -/

/-- C1: a `delete_record` call with an empty conditions mapping returns
success=false with a non-empty error before any backend query is issued
(its `execute_raw_sql` trace is empty, so no row is ever deleted); with
a non-empty conditions mapping, the single issued query's WHERE clause
is the AND-conjunction of one equality test per condition key. -/
theorem delete_record_fails_closed :
    (∀ (b : Backend) (t : String),
      delete_record b t [] =
        ([("success", .b false),
          ("error", .s "No conditions provided for deletion"),
          ("message", .s "DELETE operations require conditions to prevent accidental data loss")],
         []) ∧
      "No conditions provided for deletion" ≠ "") ∧
    (∀ (b : Backend) (t : String) (conditions : Params), conditions ≠ [] →
      (delete_record b t conditions).2 =
        [("\n            DELETE FROM " ++ t ++ "\n            WHERE " ++
          joinSep " AND " (conditions.map (fun kv => kv.1 ++ " = :" ++ kv.1)) ++
          "\n            RETURNING *\n        ", conditions)]) := by
  constructor
  · intro b t
    exact ⟨rfl, by decide⟩
  · intro b t conditions h
    rcases conditions with _ | ⟨c, cs⟩
    · exact absurd rfl h
    · unfold delete_record
      dsimp only
      split
      · simp_all
      · unfold tryQuery
        split <;> rfl

/-- Witness for C1: at table `users` and the one-key conditions mapping
`id = 1`, the issued query carries exactly that WHERE equality. -/
theorem delete_record_fails_closed_witness :
    ([("id", "1")] : Params) ≠ [] ∧
    (delete_record okBackend "users" [("id", "1")]).2 =
      [("\n            DELETE FROM users\n            WHERE " ++
        joinSep " AND " (([("id", "1")] : Params).map (fun kv => kv.1 ++ " = :" ++ kv.1)) ++
        "\n            RETURNING *\n        ", [("id", "1")])] :=
  ⟨by decide, delete_record_fails_closed.2 okBackend "users" [("id", "1")] (by decide)⟩

/-! ## Claim C2 -/

/-- Counterexample to C2: the claim's gate description fails on the
second implementation it cites.  In `agent_old.py` the retry gate keys
on "next action" / "try again" text only: a latest reply whose text
contains a "done" marker (here together with "next action") is routed
to Plan, not Finish; and a reply carrying a tool-call request (here for
`describe_database`) with neutral text is routed to Finish, not Plan. -/
theorem retry_gate_old_counterexample :
    strContains (lowerStr "DONE. Next action: verify the rows") "done" = true ∧
    should_retry_old
        ⟨"q", [⟨"DONE. Next action: verify the rows", []⟩], "plan", [], 0, 3, ""⟩ =
      some "plan" ∧
    (⟨"describe_database", [], "c0"⟩ : ToolCall) ∈
      (Msg.mk "calling the tool now" [⟨"describe_database", [], "c0"⟩]).tool_calls ∧
    should_retry_old
        ⟨"q", [⟨"calling the tool now", [⟨"describe_database", [], "c0"⟩]⟩],
         "plan", [], 0, 3, ""⟩ =
      some "finish" :=
  ⟨rfl, rfl, by decide, rfl⟩

/-- C2 as amended: the canonical retry gate (`agent_complex.py:269`)
decides, in order: error counter at or above the max-error bound forces
Finish; otherwise a reply whose lowercased text contains "done" goes to
Finish; otherwise a reply carrying a tool-call request loops to Plan;
otherwise Finish — and that gate's only possible outputs are Plan and
Finish.  The historical gate (`agent_old.py:219`) shares only the
error-bound clause: below the bound it loops to Plan exactly when the
lowercased latest reply contains "next action" or "try again", and goes
to Finish otherwise, with no done-marker or tool-call inspection. -/
theorem retry_gate_decision :
    (∀ s : WizardState, should_retry s = "plan" ∨ should_retry s = "finish") ∧
    (∀ s : WizardState, s.max_errors ≤ s.error_count → should_retry s = "finish") ∧
    (∀ (s : WizardState) (m : Msg), s.error_count < s.max_errors →
      s.messages.getLast? = some m → strContains (lowerStr m.content) "done" = true →
      should_retry s = "finish") ∧
    (∀ (s : WizardState) (m : Msg), s.error_count < s.max_errors →
      s.messages.getLast? = some m → strContains (lowerStr m.content) "done" = false →
      m.tool_calls ≠ [] → should_retry s = "plan") ∧
    (∀ (s : WizardState) (m : Msg), s.error_count < s.max_errors →
      s.messages.getLast? = some m → strContains (lowerStr m.content) "done" = false →
      m.tool_calls = [] → should_retry s = "finish") ∧
    (∀ s : WizardState, s.messages.getLast? = none → should_retry s = "finish") ∧
    (∀ s : WizardState, s.max_errors ≤ s.error_count →
      should_retry_old s = some "finish") ∧
    (∀ (s : WizardState) (m : Msg), s.error_count < s.max_errors →
      s.messages.getLast? = some m →
      (strContains (lowerStr m.content) "next action" ||
        strContains (lowerStr m.content) "try again") = true →
      should_retry_old s = some "plan") ∧
    (∀ (s : WizardState) (m : Msg), s.error_count < s.max_errors →
      s.messages.getLast? = some m →
      (strContains (lowerStr m.content) "next action" ||
        strContains (lowerStr m.content) "try again") = false →
      should_retry_old s = some "finish") := by
  refine ⟨?_, ?_, ?_, ?_, ?_, ?_, ?_, ?_, ?_⟩
  · intro s
    unfold should_retry
    split
    · exact .inr rfl
    · split
      · exact .inr rfl
      · split
        · exact .inr rfl
        · split
          · exact .inl rfl
          · exact .inr rfl
  · intro s h
    simp [should_retry, h]
  · intro s m h1 h2 h3
    simp [should_retry, Nat.not_le.mpr h1, h2, h3]
  · intro s m h1 h2 h3 h4
    cases h4l : m.tool_calls with
    | nil => exact absurd h4l h4
    | cons a as => simp [should_retry, Nat.not_le.mpr h1, h2, h3, h4l]
  · intro s m h1 h2 h3 h4
    simp [should_retry, Nat.not_le.mpr h1, h2, h3, h4]
  · intro s h
    unfold should_retry
    split
    · rfl
    · rw [h]
  · intro s h
    simp [should_retry_old, h]
  · intro s m h1 h2 h3
    simp [should_retry_old, Nat.not_le.mpr h1, h2, h3]
  · intro s m h1 h2 h3
    simp [should_retry_old, Nat.not_le.mpr h1, h2, h3]

/-- Witness for C2 as amended: both gates evaluated on concrete states
exercising each branch. -/
theorem retry_gate_decision_witness :
    should_retry ⟨"q", [], "plan", [], 3, 3, ""⟩ = "finish" ∧
    should_retry ⟨"q", [⟨"DONE: all set", []⟩], "plan", [], 0, 3, ""⟩ = "finish" ∧
    should_retry ⟨"q", [⟨"next step", [⟨"read_records", [], "c1"⟩]⟩], "plan", [], 0, 3, ""⟩ = "plan" ∧
    should_retry ⟨"q", [⟨"next step", []⟩], "plan", [], 0, 3, ""⟩ = "finish" ∧
    should_retry ⟨"q", [], "plan", [], 0, 3, ""⟩ = "finish" ∧
    should_retry_old ⟨"q", [⟨"ready", []⟩], "plan", [], 3, 3, ""⟩ = some "finish" ∧
    should_retry_old ⟨"q", [⟨"Try again with the right table", []⟩], "plan", [], 0, 3, ""⟩ =
      some "plan" ∧
    should_retry_old ⟨"q", [⟨"all set", []⟩], "plan", [], 0, 3, ""⟩ = some "finish" :=
  ⟨retry_gate_decision.2.1 _ (by decide),
   retry_gate_decision.2.2.1 _ ⟨"DONE: all set", []⟩ (by decide) rfl rfl,
   retry_gate_decision.2.2.2.1 _ ⟨"next step", [⟨"read_records", [], "c1"⟩]⟩
     (by decide) rfl rfl (by decide),
   retry_gate_decision.2.2.2.2.1 _ ⟨"next step", []⟩ (by decide) rfl rfl rfl,
   retry_gate_decision.2.2.2.2.2.1 _ rfl,
   retry_gate_decision.2.2.2.2.2.2.1 _ (by decide),
   retry_gate_decision.2.2.2.2.2.2.2.1 _ ⟨"Try again with the right table", []⟩
     (by decide) rfl rfl,
   retry_gate_decision.2.2.2.2.2.2.2.2 _ ⟨"all set", []⟩ (by decide) rfl rfl⟩

/-! ## Claim C6 -/

/-- C6: the error counter is left unchanged by the Plan, Reflect and
Finish nodes, is incremented by the Execute node exactly when the tool
invocation fails, and the retry gate forces Finish whenever the counter
has reached the max-error bound, regardless of the latest model
output. -/
theorem error_counter_discipline :
    (∀ (resp : Msg) (s : WizardState), (plan_node resp s).error_count = s.error_count) ∧
    (∀ (resp : Msg) (s : WizardState), (reflect_node resp s).error_count = s.error_count) ∧
    (∀ (resp : Msg) (s : WizardState), (finish_node resp s).error_count = s.error_count) ∧
    (∀ (inv : Invoke) (s : WizardState),
      (execute_node inv s).error_count =
        s.error_count + (if execFailed inv s then 1 else 0)) ∧
    (∀ s : WizardState, s.max_errors ≤ s.error_count → should_retry s = "finish") := by
  refine ⟨fun _ _ => rfl, fun _ _ => rfl, fun _ _ => rfl, ?_, ?_⟩
  · intro inv s
    unfold execute_node execFailed
    cases hm : s.messages.getLast? with
    | none => simp
    | some last =>
      cases htc : last.tool_calls with
      | nil => simp [htc]
      | cons tc rest =>
        by_cases hname : tc.name ∈ toolNames
        · cases hinv : inv tc.name tc.args <;> simp [htc, hname, hinv]
        · simp [htc, hname]
  · intro s h
    simp [should_retry, h]

/-- Witness for C6: on a state at the error bound, the gate forces
Finish even though the latest reply requests another tool call. -/
theorem error_counter_discipline_witness :
    (execute_node okInv
        ⟨"q", [⟨"go", [⟨"read_records", [], "c1"⟩]⟩], "execute", [], 0, 3, ""⟩).error_count =
      0 + (if execFailed okInv
        ⟨"q", [⟨"go", [⟨"read_records", [], "c1"⟩]⟩], "execute", [], 0, 3, ""⟩ then 1 else 0) ∧
    should_retry ⟨"q", [⟨"retry", [⟨"read_records", [], "c2"⟩]⟩], "plan", [], 3, 3, ""⟩ = "finish" :=
  ⟨error_counter_discipline.2.2.2.1 okInv _,
   error_counter_discipline.2.2.2.2 _ (by decide)⟩

/-! ## Claim C4 -/

/-- Counterexample to C4: on a tool-call request naming an unregistered
tool, the Execute node of the plan/execute/reflect machine records no
success=false ToolResult at all — `tool_results` stays empty — and the
run moves straight to `finish`, skipping Reflect, so no failed result is
folded in for Reflect to react to. -/
theorem unknown_tool_counterexample :
    execute_node okInv unknownToolState =
      { unknownToolState with current_step := "finish" } ∧
    (execute_node okInv unknownToolState).tool_results = [] ∧
    should_continue (execute_node okInv unknownToolState) = "finish" :=
  ⟨rfl, rfl, rfl⟩

/-- C4 as amended: an unknown tool name never raises an uncaught fault;
in the `agent.py` loop each such call is answered by a tool message
reading `Tool <name> not found`, folded into the conversation for the
model to react to, while in the `agent_complex.py` Execute phase the
run transitions directly to `finish` without recording any failed
ToolResult. -/
theorem unknown_tool_amended :
    (∀ (inv : Invoke) (s : WizardState) (m : Msg) (tc : ToolCall) (rest : List ToolCall),
      s.messages.getLast? = some m → m.tool_calls = tc :: rest →
      tc.name ∉ toolNames →
      execute_node inv s = { s with current_step := "finish" }) ∧
    (∀ (inv : Invoke) (dumps : Dict → String) (m : Msg) (tc : ToolCall),
      tc ∈ m.tool_calls → tc.name ∉ toolNames →
      (⟨"Tool " ++ tc.name ++ " not found", tc.id⟩ : ToolMsg) ∈ call_tools inv dumps m) := by
  constructor
  · intro inv s m tc rest hm htc hname
    unfold execute_node
    rw [hm]
    dsimp only
    rw [htc]
    simp [hname]
  · intro inv dumps m tc htc hname
    unfold call_tools
    have hmem := List.mem_map_of_mem
      (fun tc : ToolCall =>
        if tc.name ∈ toolNames then
          match inv tc.name tc.args with
          | .ok result => (⟨dumps result, tc.id⟩ : ToolMsg)
          | .error e => (⟨"Error: " ++ e, tc.id⟩ : ToolMsg)
        else ⟨"Tool " ++ tc.name ++ " not found", tc.id⟩) htc
    simpa [hname] using hmem

/-- Witness for C4 as amended: a concrete unknown-tool call exercising
both conclusions. -/
theorem unknown_tool_amended_witness :
    execute_node okInv unknownToolState =
      { unknownToolState with current_step := "finish" } ∧
    (⟨"Tool nonexistent_tool not found", "call_1"⟩ : ToolMsg) ∈
      call_tools okInv (fun _ => "") ⟨"", [⟨"nonexistent_tool", [], "call_1"⟩]⟩ :=
  ⟨unknown_tool_amended.1 okInv unknownToolState ⟨"", [⟨"nonexistent_tool", [], "call_1"⟩]⟩
      ⟨"nonexistent_tool", [], "call_1"⟩ [] rfl rfl (by decide),
   unknown_tool_amended.2 okInv (fun _ => "") ⟨"", [⟨"nonexistent_tool", [], "call_1"⟩]⟩
      ⟨"nonexistent_tool", [], "call_1"⟩ (by decide) (by decide)⟩

/-! ## Claim C3 -/

/-- The edge out of `plan` routes to `execute` or `finish` only. -/
theorem should_execute_cases (s : WizardState) :
    should_execute s = "execute" ∨ should_execute s = "finish" := by
  unfold should_execute
  split
  · exact .inl rfl
  · exact .inr rfl

/-- The edge out of `execute` routes to `reflect` or `finish` only. -/
theorem should_continue_cases (s : WizardState) :
    should_continue s = "reflect" ∨ should_continue s = "finish" := by
  unfold should_continue
  split
  · exact .inl rfl
  · exact .inr rfl

/-- The retry gate routes to `plan` or `finish` only. -/
theorem should_retry_cases (s : WizardState) :
    should_retry s = "plan" ∨ should_retry s = "finish" := by
  unfold should_retry
  split
  · exact .inr rfl
  · split
    · exact .inr rfl
    · split
      · exact .inr rfl
      · split
        · exact .inl rfl
        · exact .inr rfl

/-- Prepending preserves a known last element. -/
theorem getLast?_cons_of_some {α : Type} (a : α) {l : List α} {x : α}
    (h : l.getLast? = some x) : (a :: l).getLast? = some x := by
  cases l with
  | nil => simp at h
  | cons b t => rw [List.getLast?_cons_cons]; exact h

/-- The driver executes at most `fuel` nodes. -/
theorem runGraph_length_le (llm : LLMStream) (inv : Invoke) :
    ∀ (fuel : Nat) (node : String) (s : WizardState) (k : Nat),
      ((runGraph llm inv fuel node s k).2).length ≤ fuel := by
  intro fuel
  induction fuel with
  | zero => intro node s k; exact Nat.le_refl 0
  | succ fuel ih =>
    intro node s k
    unfold runGraph
    dsimp only
    split
    · simp
    · simpa using Nat.succ_le_succ (ih _ _ _)

/-- A run the driver completes normally has executed the `finish` node
last. -/
theorem runGraph_ok_last (llm : LLMStream) (inv : Invoke) :
    ∀ (fuel : Nat) (node : String) (s : WizardState) (k : Nat),
      node ∈ graphNodes →
      ∀ s', (runGraph llm inv fuel node s k).1 = .ok s' →
        ((runGraph llm inv fuel node s k).2).getLast? = some "finish" := by
  intro fuel
  induction fuel with
  | zero =>
    intro node s k _ s' hok
    exact absurd hok (by simp [runGraph])
  | succ fuel ih =>
    intro node s k hmem s' hok
    unfold runGraph at hok ⊢
    dsimp only at hok ⊢
    cases hif : nextNode node (applyNode llm inv node s k).1 == "END" with
    | true =>
      rw [hif] at hok
      rw [if_pos (Eq.refl true)] at hok
      rw [if_pos (Eq.refl true)]
      have hEnd : nextNode node (applyNode llm inv node s k).1 = "END" :=
        by exact beq_iff_eq.mp hif
      simp only [graphNodes, List.mem_cons, List.not_mem_nil, or_false] at hmem
      rcases hmem with rfl | rfl | rfl | rfl
      · rcases should_execute_cases (applyNode llm inv "plan" s k).1 with hc | hc <;>
          rw [show nextNode "plan" (applyNode llm inv "plan" s k).1 =
            should_execute (applyNode llm inv "plan" s k).1 from rfl] at hEnd <;>
          rw [hc] at hEnd <;> exact absurd hEnd (by decide)
      · rcases should_continue_cases (applyNode llm inv "execute" s k).1 with hc | hc <;>
          rw [show nextNode "execute" (applyNode llm inv "execute" s k).1 =
            should_continue (applyNode llm inv "execute" s k).1 from rfl] at hEnd <;>
          rw [hc] at hEnd <;> exact absurd hEnd (by decide)
      · rcases should_retry_cases (applyNode llm inv "reflect" s k).1 with hc | hc <;>
          rw [show nextNode "reflect" (applyNode llm inv "reflect" s k).1 =
            should_retry (applyNode llm inv "reflect" s k).1 from rfl] at hEnd <;>
          rw [hc] at hEnd <;> exact absurd hEnd (by decide)
      · rfl
    | false =>
      rw [hif] at hok
      rw [if_neg (by decide : ¬(false = true))] at hok
      rw [if_neg (by decide : ¬(false = true))]
      have hne : nextNode node (applyNode llm inv node s k).1 ≠ "END" := by
        intro hEq
        rw [hEq] at hif
        exact absurd hif (by decide)
      have hnext : nextNode node (applyNode llm inv node s k).1 ∈ graphNodes := by
        simp only [graphNodes, List.mem_cons, List.not_mem_nil, or_false] at hmem ⊢
        rcases hmem with rfl | rfl | rfl | rfl
        · rcases should_execute_cases (applyNode llm inv "plan" s k).1 with hc | hc <;>
            rw [show nextNode "plan" (applyNode llm inv "plan" s k).1 =
              should_execute (applyNode llm inv "plan" s k).1 from rfl, hc] <;> simp
        · rcases should_continue_cases (applyNode llm inv "execute" s k).1 with hc | hc <;>
            rw [show nextNode "execute" (applyNode llm inv "execute" s k).1 =
              should_continue (applyNode llm inv "execute" s k).1 from rfl, hc] <;> simp
        · rcases should_retry_cases (applyNode llm inv "reflect" s k).1 with hc | hc <;>
            rw [show nextNode "reflect" (applyNode llm inv "reflect" s k).1 =
              should_retry (applyNode llm inv "reflect" s k).1 from rfl, hc] <;> simp
        · exact absurd (show nextNode "finish" (applyNode llm inv "finish" s k).1 = "END"
            from rfl) hne
      exact getLast?_cons_of_some _ (ih _ _ _ hnext s' hok)

/-- Counterexample to C3: a model that always requests another tool
call and never signals completion makes the driver abort with the graph
library's recursion fault; the `finish` node is never executed and
`process` propagates the raw fault instead of returning an answer. -/
theorem step_ceiling_counterexample :
    (runGraph loopLLM okInv 10 "plan" (initState "q") 0).1 =
      .error "GraphRecursionError" ∧
    "finish" ∉ (runGraph loopLLM okInv 10 "plan" (initState "q") 0).2 ∧
    process loopLLM okInv "q" = .error "GraphRecursionError" := by
  refine ⟨rfl, by decide, rfl⟩

/-- C3 as amended: the number of Plan/Execute/Reflect/Finish node
executions per run is bounded by the step ceiling (10), and every run
the driver completes normally has reached the terminal Finish state —
but when the ceiling is exhausted first, the driver aborts the run with
a recursion-limit fault instead of reaching Finish. -/
theorem step_ceiling_amended :
    (∀ (llm : LLMStream) (inv : Invoke) (question : String),
      ((runGraph llm inv 10 "plan" (initState question) 0).2).length ≤ 10) ∧
    (∀ (llm : LLMStream) (inv : Invoke) (question : String) (s' : WizardState),
      (runGraph llm inv 10 "plan" (initState question) 0).1 = .ok s' →
      ((runGraph llm inv 10 "plan" (initState question) 0).2).getLast? = some "finish") :=
  ⟨fun llm inv question => runGraph_length_le llm inv 10 "plan" (initState question) 0,
   fun llm inv question s' hok =>
     runGraph_ok_last llm inv 10 "plan" (initState question) 0 (by decide) s' hok⟩

/-- Witness for C3 as amended: a model that immediately answers with no
tool call completes the run in three node executions, ending at
`finish`. -/
theorem step_ceiling_amended_witness :
    ((runGraph idleLLM okInv 10 "plan" (initState "q") 0).2).length ≤ 10 ∧
    ((runGraph idleLLM okInv 10 "plan" (initState "q") 0).2).getLast? = some "finish" :=
  ⟨step_ceiling_amended.1 idleLLM okInv "q",
   step_ceiling_amended.2 idleLLM okInv "q"
     ⟨"q", [⟨"hello", []⟩], "finish", [], 0, 3, "hello"⟩ rfl⟩

/-! ## Claim C10 -/

/-- Counterexample to C10: at limit `-1` — not a strictly positive
value — `read_records` still appends a LIMIT clause, because the source
tests the limit argument for truthiness only. -/
theorem limit_truthiness_counterexample :
    read_query "t" none none (some (-1)) none = "SELECT * FROM t LIMIT -1" ∧
    strContains (read_query "t" none none (some (-1)) none) "LIMIT" = true ∧
    ¬((0 : Int) < -1) :=
  ⟨rfl, rfl, by decide⟩

/-- C10 as amended: a call with limit 0 is indistinguishable from a
call with no limit (result and issued query alike, so all matching rows
come back), and a LIMIT clause is appended exactly for the nonzero
limit values — including negative ones. -/
theorem limit_truthiness_amended :
    (∀ (b : Backend) (t : String) (conds : Option Params)
      (cols : Option (List String)) (ord : Option String),
      read_records b t conds cols (some 0) ord = read_records b t conds cols none ord) ∧
    (∀ (t : String) (conds : Option Params) (cols : Option (List String))
      (ord : Option String) (n : Int), n ≠ 0 →
      read_query t conds cols (some n) ord =
        read_query t conds cols none ord ++ " LIMIT " ++ toString n) ∧
    (∀ (t : String) (conds : Option Params) (cols : Option (List String))
      (ord : Option String),
      read_query t conds cols (some 0) ord = read_query t conds cols none ord) := by
  refine ⟨fun _ _ _ _ _ => rfl, ?_, fun _ _ _ _ => rfl⟩
  intro t conds cols ord n hn
  unfold read_query
  dsimp only
  rw [show (n == 0) = false from beq_eq_false_iff_ne.mpr hn]
  rw [if_neg (by decide : ¬(false = true))]

/-- Witness for C10 as amended: limit 5 appends `LIMIT 5` to the
limit-free query; limit 0 equals the limit-free call. -/
theorem limit_truthiness_amended_witness :
    read_query "t" none none (some 5) none =
      read_query "t" none none none none ++ " LIMIT " ++ toString (5 : Int) ∧
    read_records okBackend "t" none none (some 0) none =
      read_records okBackend "t" none none none none :=
  ⟨limit_truthiness_amended.2.1 "t" none none none 5 (by decide),
   limit_truthiness_amended.1 okBackend "t" none none none⟩

/-! ## Claim C9 -/

/-- A run of the transaction loop with no failure issues exactly the
given queries. -/
theorem runQueries_ok_trace (b : Backend) :
    ∀ qs : List String, (runQueries b qs).2 = none →
      (runQueries b qs).1 = qs.map (fun q => (q, [])) := by
  intro qs
  induction qs with
  | nil => intro _; rfl
  | cons q rest ih =>
    intro h
    unfold runQueries at h ⊢
    cases hb : b q [] with
    | ok rows =>
      rw [hb] at h
      dsimp only at h ⊢
      rw [List.map_cons, ih h]
    | error e =>
      rw [hb] at h
      dsimp only at h
      exact absurd h (by simp)

/-- C9: in commit mode the issued query sequence is BEGIN, then the
given statements in order, then COMMIT; on any failure a ROLLBACK is
issued last and the result reports success=false; in rollback mode the
first issued statement is ROLLBACK; any other mode yields an
InvalidMode-style failure with no statement issued. -/
theorem manage_transaction_modes :
    (∀ (b : Backend) (ops : List String),
      (runQueries b ("BEGIN" :: ops ++ ["COMMIT"])).2 = none →
      manage_transaction b ops "commit" =
        ([("success", .b true),
          ("message", .s "Transaction committed successfully"),
          ("operations_count", .n ops.length)],
         ("BEGIN" :: ops ++ ["COMMIT"]).map (fun q => (q, [])))) ∧
    (∀ (b : Backend) (ops : List String) (e : String),
      (runQueries b ("BEGIN" :: ops ++ ["COMMIT"])).2 = some e →
      (manage_transaction b ops "commit").1 =
        [("success", .b false),
         ("error", .s e),
         ("message", .s "Transaction failed and was rolled back")] ∧
      ((manage_transaction b ops "commit").2).getLast? = some ("ROLLBACK", [])) ∧
    (∀ (b : Backend) (ops : List String),
      ((manage_transaction b ops "rollback").2).head? = some ("ROLLBACK", [])) ∧
    (∀ (b : Backend) (ops : List String) (mode : String),
      mode ≠ "commit" → mode ≠ "rollback" →
      manage_transaction b ops mode =
        ([("success", .b false),
          ("error", .s ("Invalid operation_type: " ++ mode)),
          ("message", .s ("operation_type must be " ++ sq ++ "commit" ++ sq ++
            " or " ++ sq ++ "rollback" ++ sq))], [])) := by
  refine ⟨?_, ?_, ?_, ?_⟩
  · intro b ops h
    unfold manage_transaction
    rw [if_pos (by decide : (("commit" == "commit") = true))]
    dsimp only
    rw [h]
    dsimp only
    rw [runQueries_ok_trace b _ h]
  · intro b ops e h
    unfold manage_transaction
    rw [if_pos (by decide : (("commit" == "commit") = true))]
    dsimp only
    rw [h]
    exact ⟨rfl, List.getLast?_concat _⟩
  · intro b ops
    unfold manage_transaction
    rw [if_neg (by decide : ¬(("rollback" == "commit") = true))]
    rw [if_pos (by decide : (("rollback" == "rollback") = true))]
    cases hb : b "ROLLBACK" [] <;> rfl
  · intro b ops mode h1 h2
    unfold manage_transaction
    rw [if_neg (fun hc => h1 (beq_iff_eq.mp hc))]
    rw [if_neg (fun hc => h2 (beq_iff_eq.mp hc))]
    rfl

/-- Witness for C9: a concrete committed transaction, a concrete failed
one, and a concrete invalid mode. -/
theorem manage_transaction_modes_witness :
    manage_transaction okBackend ["INSERT INTO t VALUES (1)"] "commit" =
      ([("success", .b true),
        ("message", .s "Transaction committed successfully"),
        ("operations_count", .n 1)],
       [("BEGIN", []), ("INSERT INTO t VALUES (1)", []), ("COMMIT", [])]) ∧
    (manage_transaction (errBackend "boom") ["INSERT INTO t VALUES (1)"] "commit").1 =
      [("success", .b false),
       ("error", .s "boom"),
       ("message", .s "Transaction failed and was rolled back")] ∧
    ((manage_transaction (errBackend "boom") ["INSERT INTO t VALUES (1)"] "commit").2).getLast? =
      some ("ROLLBACK", []) ∧
    ((manage_transaction okBackend [] "rollback").2).head? = some ("ROLLBACK", []) ∧
    (manage_transaction okBackend [] "bogus").1 =
      [("success", .b false),
       ("error", .s ("Invalid operation_type: " ++ "bogus")),
       ("message", .s ("operation_type must be " ++ sq ++ "commit" ++ sq ++
         " or " ++ sq ++ "rollback" ++ sq))] := by
  have h1 := manage_transaction_modes.1 okBackend ["INSERT INTO t VALUES (1)"] rfl
  have h2 := manage_transaction_modes.2.1 (errBackend "boom")
    ["INSERT INTO t VALUES (1)"] "boom" rfl
  have h3 := manage_transaction_modes.2.2.1 okBackend ([] : List String)
  have h4 := manage_transaction_modes.2.2.2 okBackend ([] : List String) "bogus"
    (by decide) (by decide)
  exact ⟨h1, h2.1, h2.2, h3, by rw [h4]⟩

/-! ## Claims C7 and C5 -/

/-- A single-query operation satisfies the envelope invariant whenever
its success dictionary does. -/
theorem tryQuery_env (b : Backend) (q : String) (ps : Params)
    (onOk : List Row → Dict) (m : String)
    (hok : ∀ rows, (onOk rows).lookup "success" = some (.b true) ∧
      (onOk rows).lookup "error" = none) :
    EnvOK (tryQuery b q ps onOk m).1 := by
  unfold tryQuery
  cases b q ps with
  | ok rows => exact .inl (hok rows)
  | error e => exact .inr ⟨e, m, rfl⟩

/-- A failing single-query operation returns the three-field failure
dictionary carrying the diagnostic of its issued call. -/
theorem tryQuery_fail (b : Backend) (q : String) (ps : Params)
    (onOk : List Row → Dict) (m : String) :
    ∀ e, firstDiag b (tryQuery b q ps onOk m).2 = some e →
      (tryQuery b q ps onOk m).1 = failDict3 e m := by
  intro e h
  unfold tryQuery at h ⊢
  cases hb : b q ps with
  | ok rows =>
    rw [hb] at h
    dsimp only at h
    simp [firstDiag, hb] at h
  | error e2 =>
    rw [hb] at h
    dsimp only at h
    simp only [firstDiag, hb] at h
    injection h with hh
    rw [hh]

/-- Replaying the transaction loop's own trace against the backend
reproduces its outcome. -/
theorem firstDiag_runQueries (b : Backend) :
    ∀ qs : List String, firstDiag b (runQueries b qs).1 = (runQueries b qs).2 := by
  intro qs
  induction qs with
  | nil => rfl
  | cons q rest ih =>
    unfold runQueries
    cases hb : b q [] with
    | ok rows =>
      dsimp only
      unfold firstDiag
      rw [hb]
      exact ih
    | error e =>
      dsimp only
      unfold firstDiag
      rw [hb]

/-- The first failure of a trace survives appending further calls. -/
theorem firstDiag_append_some (b : Backend) :
    ∀ (l1 l2 : List (String × Params)) (e : String),
      firstDiag b l1 = some e → firstDiag b (l1 ++ l2) = some e := by
  intro l1
  induction l1 with
  | nil => intro l2 e h; exact absurd h (by simp [firstDiag])
  | cons x rest ih =>
    intro l2 e h
    rcases x with ⟨q, ps⟩
    rw [List.cons_append]
    unfold firstDiag at h ⊢
    cases hb : b q ps with
    | ok rows =>
      rw [hb] at h
      dsimp only at h
      exact ih l2 e h
    | error e2 =>
      rw [hb] at h
      dsimp only at h
      exact h

/-- Counterexample to C7: a backend fault with an empty diagnostic
yields a failure dictionary whose error string is empty, because the
diagnostic is copied verbatim — so "error is non-empty" does not hold
for every input. -/
theorem envelope_empty_error_counterexample :
    ((delete_record (errBackend "") "t" [("id", "1")]).1).lookup "success" =
      some (.b false) ∧
    ((delete_record (errBackend "") "t" [("id", "1")]).1).lookup "error" =
      some (.s "") ∧
    ("" : String).length = 0 :=
  ⟨rfl, rfl, rfl⟩

/-- C7 as amended: every dictionary returned by any of the eleven
operations either reports success with no error key at all, or is
exactly the three-field success/error/message failure shape — payload
absent and error present.  The error text is non-empty on every guard
failure but is the backend's diagnostic verbatim on backend failures,
hence empty exactly when that diagnostic is empty. -/
theorem envelope_shape_amended :
    (∀ (b : Backend) (t : String) (d : Params), EnvOK (create_record b t d).1) ∧
    (∀ (b : Backend) (t : String) (conds : Option Params)
      (cols : Option (List String)) (lim : Option Int) (ord : Option String),
      EnvOK (read_records b t conds cols lim ord).1) ∧
    (∀ (b : Backend) (t : String) (d conds : Params),
      EnvOK (update_record b t d conds).1) ∧
    (∀ (b : Backend) (t : String) (conds : Params),
      EnvOK (delete_record b t conds).1) ∧
    (∀ b : Backend, EnvOK (describe_database b).1) ∧
    (∀ (b : Backend) (t : String), EnvOK (describe_table b t).1) ∧
    (∀ (b : Backend) (t : String) (cols : List (List (String × String)))
      (constrs : Option (List String)), EnvOK (create_table b t cols constrs).1) ∧
    (∀ (b : Backend) (t op : String) (details : List (String × String)),
      EnvOK (alter_table b t op details).1) ∧
    (∀ (b : Backend) (t i : String) (cols : List String) (u : Bool),
      EnvOK (create_index b t i cols u).1) ∧
    (∀ (b : Backend) (i : String), EnvOK (drop_index b i).1) ∧
    (∀ (b : Backend) (ops : List String) (mode : String),
      EnvOK (manage_transaction b ops mode).1) := by
  refine ⟨?_, ?_, ?_, ?_, ?_, ?_, ?_, ?_, ?_, ?_, ?_⟩
  · intro b t d
    exact tryQuery_env _ _ _ _ _ (fun rows => ⟨rfl, rfl⟩)
  · intro b t conds cols lim ord
    exact tryQuery_env _ _ _ _ _ (fun rows => ⟨rfl, rfl⟩)
  · intro b t d conds
    exact tryQuery_env _ _ _ _ _ (fun rows => ⟨rfl, rfl⟩)
  · intro b t conds
    unfold delete_record
    dsimp only
    split
    · exact .inr ⟨_, _, rfl⟩
    · exact tryQuery_env _ _ _ _ _ (fun rows => ⟨rfl, rfl⟩)
  · intro b
    exact tryQuery_env _ _ _ _ _ (fun rows => ⟨rfl, rfl⟩)
  · intro b t
    unfold describe_table
    dsimp only
    split
    · exact .inr ⟨_, _, rfl⟩
    · split
      · exact .inr ⟨_, _, rfl⟩
      · split
        · exact .inr ⟨_, _, rfl⟩
        · split
          · exact .inl ⟨rfl, rfl⟩
          · split
            · exact .inr ⟨_, _, rfl⟩
            · exact .inl ⟨rfl, rfl⟩
  · intro b t cols constrs
    unfold create_table
    split
    · exact .inr ⟨_, _, rfl⟩
    · exact tryQuery_env _ _ _ _ _ (fun rows => ⟨rfl, rfl⟩)
  · intro b t op details
    unfold alter_table
    split
    · exact .inr ⟨_, _, rfl⟩
    · exact .inr ⟨_, _, rfl⟩
    · exact tryQuery_env _ _ _ _ _ (fun rows => ⟨rfl, rfl⟩)
  · intro b t i cols u
    exact tryQuery_env _ _ _ _ _ (fun rows => ⟨rfl, rfl⟩)
  · intro b i
    exact tryQuery_env _ _ _ _ _ (fun rows => ⟨rfl, rfl⟩)
  · intro b ops mode
    unfold manage_transaction
    dsimp only
    split
    · split
      · exact .inl ⟨rfl, rfl⟩
      · exact .inr ⟨_, _, rfl⟩
    · split
      · split
        · exact .inl ⟨rfl, rfl⟩
        · exact .inr ⟨_, _, rfl⟩
      · exact .inr ⟨_, _, rfl⟩

/-- C5: each of the eleven operations is a total function (no exception
escapes its boundary), and whenever the backend raises on a call the
operation issued, the returned envelope has success=false and carries
the backend's diagnostic text verbatim as its error — stated here as:
if the first failing call of the operation's issued trace has
diagnostic `e`, the result is the three-field failure dictionary with
error `e`. -/
theorem tools_catch_backend_faults :
    (∀ (b : Backend) (t : String) (d : Params) (e : String),
      firstDiag b (create_record b t d).2 = some e →
      (create_record b t d).1 = failDict3 e ("Failed to create record in " ++ t)) ∧
    (∀ (b : Backend) (t : String) (conds : Option Params)
      (cols : Option (List String)) (lim : Option Int) (ord : Option String)
      (e : String),
      firstDiag b (read_records b t conds cols lim ord).2 = some e →
      (read_records b t conds cols lim ord).1 = failDict3 e ("Failed to query " ++ t)) ∧
    (∀ (b : Backend) (t : String) (d conds : Params) (e : String),
      firstDiag b (update_record b t d conds).2 = some e →
      (update_record b t d conds).1 = failDict3 e ("Failed to update records in " ++ t)) ∧
    (∀ (b : Backend) (t : String) (conds : Params) (e : String),
      firstDiag b (delete_record b t conds).2 = some e →
      (delete_record b t conds).1 = failDict3 e ("Failed to delete records from " ++ t)) ∧
    (∀ (b : Backend) (e : String),
      firstDiag b (describe_database b).2 = some e →
      (describe_database b).1 = failDict3 e "Failed to describe database") ∧
    (∀ (b : Backend) (t : String) (e : String),
      firstDiag b (describe_table b t).2 = some e →
      (describe_table b t).1 = failDict3 e ("Failed to describe table " ++ t)) ∧
    (∀ (b : Backend) (t : String) (cols : List (List (String × String)))
      (constrs : Option (List String)) (e : String),
      firstDiag b (create_table b t cols constrs).2 = some e →
      (create_table b t cols constrs).1 = failDict3 e ("Failed to create table " ++ t)) ∧
    (∀ (b : Backend) (t op : String) (details : List (String × String)) (e : String),
      firstDiag b (alter_table b t op details).2 = some e →
      (alter_table b t op details).1 = failDict3 e ("Failed to alter table " ++ t)) ∧
    (∀ (b : Backend) (t i : String) (cols : List String) (u : Bool) (e : String),
      firstDiag b (create_index b t i cols u).2 = some e →
      (create_index b t i cols u).1 = failDict3 e ("Failed to create index " ++ i)) ∧
    (∀ (b : Backend) (i : String) (e : String),
      firstDiag b (drop_index b i).2 = some e →
      (drop_index b i).1 = failDict3 e ("Failed to drop index " ++ i)) ∧
    (∀ (b : Backend) (ops : List String) (mode : String) (e : String),
      firstDiag b (manage_transaction b ops mode).2 = some e →
      (manage_transaction b ops mode).1 =
        failDict3 e "Transaction failed and was rolled back") := by
  refine ⟨?_, ?_, ?_, ?_, ?_, ?_, ?_, ?_, ?_, ?_, ?_⟩
  · intro b t d e h
    exact tryQuery_fail _ _ _ _ _ e h
  · intro b t conds cols lim ord e h
    exact tryQuery_fail _ _ _ _ _ e h
  · intro b t d conds e h
    exact tryQuery_fail _ _ _ _ _ e h
  · intro b t conds e h
    match conds with
    | [] => exact absurd h (by simp [delete_record, firstDiag])
    | c :: cs => exact tryQuery_fail _ _ _ _ _ e h
  · intro b e h
    exact tryQuery_fail _ _ _ _ _ e h
  · intro b t e h
    unfold describe_table at h ⊢
    dsimp only at h ⊢
    revert h
    cases hb1 : b columns_query [("table_name", t)] with
    | error e1 =>
      intro h
      simp [firstDiag, hb1] at h
      rw [h]
    | ok cols1 =>
      cases hb2 : b constraints_query [("table_name", t)] with
      | error e2 =>
        intro h
        simp [firstDiag, hb1, hb2] at h
        rw [h]
      | ok cons2 =>
        cases hb3 : b ("SELECT COUNT(*) as row_count FROM " ++ t) [] with
        | error e3 =>
          intro h
          simp [firstDiag, hb1, hb2, hb3] at h
          rw [h]
        | ok rc =>
          intro h
          rcases hh : rc.head? with _ | r
          · simp [hh, firstDiag, hb1, hb2, hb3] at h
          · rcases hl : List.lookup "row_count" r with _ | v
            · simp [hh, hl, firstDiag, hb1, hb2, hb3] at h
            · simp [hh, hl, firstDiag, hb1, hb2, hb3] at h
  · intro b t cols constrs e h
    unfold create_table at h ⊢
    revert h
    cases hm : cols.mapM colDef with
    | error e2 =>
      intro h
      dsimp only at h
      simp [firstDiag] at h
    | ok defs =>
      intro h
      dsimp only at h ⊢
      exact tryQuery_fail _ _ _ _ _ e h
  · intro b t op details e h
    unfold alter_table at h ⊢
    revert h
    cases ha : alterQuery t op details with
    | none =>
      intro h
      dsimp only at h
      simp [firstDiag] at h
    | some r =>
      cases r with
      | error e2 =>
        intro h
        dsimp only at h
        simp [firstDiag] at h
      | ok q =>
        intro h
        dsimp only at h ⊢
        exact tryQuery_fail _ _ _ _ _ e h
  · intro b t i cols u e h
    exact tryQuery_fail _ _ _ _ _ e h
  · intro b i e h
    exact tryQuery_fail _ _ _ _ _ e h
  · intro b ops mode e h
    unfold manage_transaction at h ⊢
    revert h
    cases hcommit : mode == "commit" with
    | true =>
      rw [if_pos (Eq.refl true)]
      dsimp only
      cases hr : (runQueries b ("BEGIN" :: ops ++ ["COMMIT"])).2 with
      | none =>
        intro h
        dsimp only at h
        rw [firstDiag_runQueries] at h
        rw [hr] at h
        exact absurd h (by simp)
      | some e2 =>
        intro h
        dsimp only at h ⊢
        have hl1 : firstDiag b (runQueries b ("BEGIN" :: ops ++ ["COMMIT"])).1 = some e2 := by
          rw [firstDiag_runQueries]
          exact hr
        have hap := firstDiag_append_some b _ [("ROLLBACK", [])] e2 hl1
        rw [hap] at h
        injection h with hh
        rw [hh]
    | false =>
      rw [if_neg (by decide : ¬(false = true))]
      cases hrb : mode == "rollback" with
      | true =>
        rw [if_pos (Eq.refl true)]
        cases hb : b "ROLLBACK" [] with
        | ok rows =>
          intro h
          simp [firstDiag, hb] at h
        | error e2 =>
          intro h
          simp [firstDiag, hb] at h
          rw [h]
      | false =>
        rw [if_neg (by decide : ¬(false = true))]
        intro h
        dsimp only at h
        simp [firstDiag] at h

/-- Witness for C5: every operation evaluated against a backend that
fails with diagnostic `boom` returns the failure envelope carrying
`boom`. -/
theorem tools_catch_backend_faults_witness :
    (create_record (errBackend "boom") "t" [("id", "1")]).1 =
      failDict3 "boom" ("Failed to create record in " ++ "t") ∧
    (read_records (errBackend "boom") "t" none none none none).1 =
      failDict3 "boom" ("Failed to query " ++ "t") ∧
    (update_record (errBackend "boom") "t" [("a", "1")] [("id", "1")]).1 =
      failDict3 "boom" ("Failed to update records in " ++ "t") ∧
    (delete_record (errBackend "boom") "t" [("id", "1")]).1 =
      failDict3 "boom" ("Failed to delete records from " ++ "t") ∧
    (describe_database (errBackend "boom")).1 =
      failDict3 "boom" "Failed to describe database" ∧
    (describe_table (errBackend "boom") "t").1 =
      failDict3 "boom" ("Failed to describe table " ++ "t") ∧
    (create_table (errBackend "boom") "t" [[("name", "id"), ("type", "SERIAL")]] none).1 =
      failDict3 "boom" ("Failed to create table " ++ "t") ∧
    (alter_table (errBackend "boom") "t" "add_column"
      [("column_name", "c"), ("column_type", "TEXT")]).1 =
      failDict3 "boom" ("Failed to alter table " ++ "t") ∧
    (create_index (errBackend "boom") "t" "idx" ["a"] false).1 =
      failDict3 "boom" ("Failed to create index " ++ "idx") ∧
    (drop_index (errBackend "boom") "idx").1 =
      failDict3 "boom" ("Failed to drop index " ++ "idx") ∧
    (manage_transaction (errBackend "boom") ["X"] "commit").1 =
      failDict3 "boom" "Transaction failed and was rolled back" :=
  ⟨tools_catch_backend_faults.1 (errBackend "boom") "t" [("id", "1")] "boom" rfl,
   tools_catch_backend_faults.2.1 (errBackend "boom") "t" none none none none "boom" rfl,
   tools_catch_backend_faults.2.2.1 (errBackend "boom") "t" [("a", "1")] [("id", "1")] "boom" rfl,
   tools_catch_backend_faults.2.2.2.1 (errBackend "boom") "t" [("id", "1")] "boom" rfl,
   tools_catch_backend_faults.2.2.2.2.1 (errBackend "boom") "boom" rfl,
   tools_catch_backend_faults.2.2.2.2.2.1 (errBackend "boom") "t" "boom" rfl,
   tools_catch_backend_faults.2.2.2.2.2.2.1 (errBackend "boom") "t"
     [[("name", "id"), ("type", "SERIAL")]] none "boom" rfl,
   tools_catch_backend_faults.2.2.2.2.2.2.2.1 (errBackend "boom") "t" "add_column"
     [("column_name", "c"), ("column_type", "TEXT")] "boom" rfl,
   tools_catch_backend_faults.2.2.2.2.2.2.2.2.1 (errBackend "boom") "t" "idx" ["a"] false "boom" rfl,
   tools_catch_backend_faults.2.2.2.2.2.2.2.2.2.1 (errBackend "boom") "idx" "boom" rfl,
   tools_catch_backend_faults.2.2.2.2.2.2.2.2.2.2 (errBackend "boom") ["X"] "commit" "boom" rfl⟩

/-! ## Claim C8 -/

/-- Counterexample to C8: `process` in `agent.py` does filesystem work
outside its `try` — `os.makedirs` and the initial `open` before it, and
the log append inside the `except` handler — so a faulting log sink
makes it propagate a raw fault to its caller instead of returning a
text answer.  (With a healthy log sink, even bound exhaustion is caught
and mapped to text, as the second conjunct shows.) -/
theorem process_raw_fault_counterexample :
    processA failFS idleLLM okInv (fun _ => "") "q" = .error "disk full" ∧
    processA okFS loopLLM okInv (fun _ => "") "q" =
      .ok "I encountered an error: GraphRecursionError" :=
  ⟨rfl, rfl⟩

/-- C8 as amended: whenever the log sink does not fault, the served
entry point `process` of `agent.py` always returns a text answer — the
conversation's last message content (with a fixed fallback) on a normal
run, and the textual description `I encountered an error: …` on any
fault the driver surfaces, including exhaustion of the recursion bound
(second conjunct).  Only a faulting log write — before the `try` or
inside the `except` handler — can escape as a raw fault. -/
theorem process_always_returns_text :
    (∀ (fs : LogSink) (llm : LLMStream) (inv : Invoke) (dumps : Dict → String)
      (question : String), (∀ n, fs n = .ok ()) →
      (∃ msgs, (runAgent llm inv dumps 15 "agent"
          [.system a_system_message, .human question] 0).1 = .ok msgs ∧
        processA fs llm inv dumps question =
          .ok (((msgs.getLast?).map AMsg.content).getD
            "I processed your request successfully.")) ∨
      (∃ e, (runAgent llm inv dumps 15 "agent"
          [.system a_system_message, .human question] 0).1 = .error e ∧
        processA fs llm inv dumps question =
          .ok ("I encountered an error: " ++ e))) ∧
    processA okFS loopLLM okInv (fun _ => "") "q" =
      .ok "I encountered an error: GraphRecursionError" := by
  constructor
  · intro fs llm inv dumps question h
    unfold processA
    rw [h 0]
    dsimp only
    rw [h 1]
    dsimp only
    cases hr : (runAgent llm inv dumps 15 "agent"
        [.system a_system_message, .human question] 0).1 with
    | ok msgs =>
      left
      refine ⟨msgs, rfl, ?_⟩
      rw [h 2]
      dsimp only
      cases hm : msgs.getLast? with
      | none => simp [hm]
      | some m => simp [hm]
    | error e =>
      right
      refine ⟨e, rfl, ?_⟩
      rw [h 2]
  · rfl

/-- Witness for C8 as amended: applied at a log sink that never faults
and a model that answers immediately. -/
theorem process_always_returns_text_witness :
    (∃ msgs, (runAgent idleLLM okInv (fun _ => "") 15 "agent"
        [.system a_system_message, .human "q"] 0).1 = .ok msgs ∧
      processA okFS idleLLM okInv (fun _ => "") "q" =
        .ok (((msgs.getLast?).map AMsg.content).getD
          "I processed your request successfully.")) ∨
    (∃ e, (runAgent idleLLM okInv (fun _ => "") 15 "agent"
        [.system a_system_message, .human "q"] 0).1 = .error e ∧
      processA okFS idleLLM okInv (fun _ => "") "q" =
        .ok ("I encountered an error: " ++ e)) :=
  process_always_returns_text.1 okFS idleLLM okInv (fun _ => "") "q" (fun _ => rfl)

end LLMBackend
